import Mathlib

/-!
Verification of the PlantGuard plant-disease web application.

The development shallowly embeds the Python sources of the repository
("Flask Deployed App": `utils.py`, `app.py`, `db.py`) as Lean functions.

Modelling conventions:
* Floating-point tensor arithmetic is embedded over `ℚ`; the exponential used
  by the softmax is an abstract parameter `e : ℚ → ℚ` assumed positive.
* The CNN forward pass (`model.py`, its weight file, and the two CSV catalog
  files are not part of the three source files) is abstracted: the model output
  is an arbitrary list of 39 logits, and the catalog tables are arbitrary lists
  of rows, with the spec-mandated cardinality (39) taken as a hypothesis.
* Effectful calls (file save + inference, MongoDB writes, bcrypt) are passed in
  as explicit oracles/parameters, so routes are pure functions of them.
-/

namespace PlantGuard

/-! ## Rounding (Python `round(x, 2)`) -/

/-- Round a rational to the nearest integer with ties going to the even
integer, modelling Python's built-in `round`. -/
def roundHalfEven (q : ℚ) : ℤ :=
  if q - ⌊q⌋ < 1/2 then ⌊q⌋
  else if 1/2 < q - ⌊q⌋ then ⌊q⌋ + 1
  else if ⌊q⌋ % 2 = 0 then ⌊q⌋ else ⌊q⌋ + 1

/-- Python `round(x, 2)`: round to two decimal places. -/
def round2 (q : ℚ) : ℚ :=
  (roundHalfEven (q * 100) : ℚ) / 100

/-! ## utils.py — prediction helpers -/

/-- Maximum of a list of rationals (the value component of `torch.max`).
The `[]` case is never reached on model outputs (39 logits). -/
def listMax : List ℚ → ℚ
  | [] => 0
  | [x] => x
  | x :: y :: ys => max x (listMax (y :: ys))

/-- Index of the first occurrence of `v` (the index component of `torch.max`,
which returns the first maximal index). -/
def firstIndexOf (v : ℚ) : List ℚ → Nat
  | [] => 0
  | x :: xs => if x = v then 0 else firstIndexOf v xs + 1

/-- Embedding of `torch.nn.functional.softmax(output, dim=1)` on the logit
vector, with the exponential abstracted as `e`. -/
def softmax (e : ℚ → ℚ) (logits : List ℚ) : List ℚ :=
  logits.map (fun x => e x / (logits.map e).sum)

/-- Embedding of `utils.predict_with_confidence`: softmax over the logits,
`torch.max` over the probabilities, confidence as percentage rounded to two
decimal places. -/
def predict_with_confidence (e : ℚ → ℚ) (logits : List ℚ) : Nat × ℚ :=
  let probabilities := softmax e logits
  let confidence := listMax probabilities
  let predicted_class := firstIndexOf confidence probabilities
  (predicted_class, round2 (confidence * 100))

/-! ## Python string primitives

Embedded at the character-list level so that concrete instances evaluate
inside the kernel. Lowercasing is modelled on ASCII letters (the only ones
relevant to the extension set and email comparison). -/

/-- Python `s.lower()`. -/
def strLower (s : String) : String := String.mk (s.data.map Char.toLower)

/-- Python `s.strip()`: remove leading and trailing whitespace. -/
def pyStrip (s : String) : String :=
  String.mk (((s.data.dropWhile Char.isWhitespace).reverse.dropWhile
    Char.isWhitespace).reverse)

/-- Characters after the last occurrence of `sep` (the whole input when `sep`
does not occur), accumulating the current segment. -/
def lastSegmentAux (sep : Char) : List Char → List Char → List Char
  | acc, [] => acc
  | acc, c :: cs =>
    if c = sep then lastSegmentAux sep [] cs else lastSegmentAux sep (acc ++ [c]) cs

/-- Python `filename.rsplit(".", 1)[-1]`: the segment after the last dot. -/
def extAfterLastDot (s : String) : String := String.mk (lastSegmentAux '.' [] s.data)

/-- Python `c in s` for a single character. -/
def strContains (s : String) (c : Char) : Bool := s.data.contains c

/-! ## utils.py — catalog lookup and upload validation -/

/-- One row of `disease_info.csv` (the file itself is not among the sources;
rows are arbitrary, the spec fixes only their count). -/
structure DiseaseRow where
  disease_name : String
  description : String
  possible_steps : String
  image_url : String
deriving DecidableEq, Repr

/-- One row of `supplement_info.csv`. -/
structure SupplementRow where
  supplement_name : String
  supplement_image : String
  buy_link : String
deriving DecidableEq, Repr

/-- The two tables loaded at module import in `utils.py`. -/
structure Catalog where
  disease_info : List DiseaseRow
  supplement_info : List SupplementRow
deriving DecidableEq, Repr

/-- Supplement part of the merged record returned by `get_disease_info`. -/
structure SupplementInfo where
  name : String
  image_url : String
  buy_link : String
deriving DecidableEq, Repr

/-- The merged disease+supplement record returned by `get_disease_info`. -/
structure MergedInfo where
  disease_name : String
  description : String
  possible_steps : String
  disease_image_url : String
  supplement : SupplementInfo
deriving DecidableEq, Repr

/-- Label lookup `series[index]` on a pandas column with a dense integer
index `0..len-1`: a missing label raises `KeyError`, embedded as `none`. -/
def seriesGet (xs : List α) (index : Int) : Option α :=
  if h : 0 ≤ index ∧ index.toNat < xs.length then some (xs.get ⟨index.toNat, h.2⟩)
  else none

/-- The record `utils.get_disease_info` assembles from row `d` and row `s`. -/
def mkMerged (d : DiseaseRow) (s : SupplementRow) : MergedInfo :=
  { disease_name := d.disease_name
    description := d.description
    possible_steps := d.possible_steps
    disease_image_url := d.image_url
    supplement :=
      { name := s.supplement_name
        image_url := s.supplement_image
        buy_link := s.buy_link } }

/-- Embedding of `utils.get_disease_info`: column accesses on the disease
table, then on the supplement table; a `KeyError` on either makes the whole
call fail (`none`). -/
def get_disease_info (c : Catalog) (index : Int) : Option MergedInfo := do
  let d ← seriesGet c.disease_info index
  let s ← seriesGet c.supplement_info index
  pure (mkMerged d s)

/-- The allowed extension set of `utils.allowed_file`. -/
def ALLOWED : List String := ["png", "jpg", "jpeg", "webp", "bmp"]

/-- Embedding of `utils.allowed_file`:
`"." in filename and filename.rsplit(".", 1)[-1].lower() in ALLOWED`. -/
def allowed_file (filename : String) : Bool :=
  strContains filename '.' && ALLOWED.contains (strLower (extAfterLastDot filename))

/-! ## db.py — prediction store -/

/-- A document of the `predictions` collection, as written by
`db.save_prediction`. Timestamps are abstracted as naturals. -/
structure PredictionRecord where
  image_filename : String
  disease_name : String
  confidence : ℚ
  description : String
  possible_steps : String
  supplement : SupplementInfo
  created_at : Nat
deriving DecidableEq, Repr

/-- The sort order requested by `find().sort("created_at", -1)`:
newest first. -/
def newestFirst (a b : PredictionRecord) : Prop :=
  b.created_at ≤ a.created_at

instance : DecidableRel newestFirst :=
  fun a b => Nat.decLe b.created_at a.created_at

instance : IsTotal PredictionRecord newestFirst :=
  ⟨fun a b => Nat.le_total b.created_at a.created_at⟩

instance : IsTrans PredictionRecord newestFirst :=
  ⟨fun _ _ _ hab hbc => le_trans hbc hab⟩

/-- MongoDB cursor `limit(n)` semantics: `limit(0)` is documented as
equivalent to setting no limit; a nonzero `n` caps the result at `|n|`
documents. -/
def mongoLimit (n : Int) (xs : List α) : List α :=
  if n = 0 then xs else xs.take n.natAbs

/-- Embedding of `db.get_recent_predictions`: the stored documents sorted by
`created_at` descending, then limited by the MongoDB `limit` semantics. -/
def get_recent_predictions (store : List PredictionRecord) (limit : Int) :
    List PredictionRecord :=
  mongoLimit limit (List.insertionSort newestFirst store)

/-! ## db.py — users store -/

/-- A document of the `users` collection (`db.create_user`); the Mongo
`_id` is modelled as a natural, `password` holds the bcrypt hash. -/
structure UserAccount where
  id : Nat
  name : String
  email : String
  password : String
  created_at : Nat
deriving DecidableEq, Repr

/-- Embedding of `db.find_user_by_email`: `users_col.find_one({"email": email})`,
the first stored document with that email. -/
def find_user_by_email (store : List UserAccount) (email : String) :
    Option UserAccount :=
  store.find? (fun u => u.email == email)

/-! ## app.py — prediction routes -/

/-- An uploaded multipart file; its bytes are abstracted (inference on them
is an oracle parameter of the routes). -/
structure UploadedFile where
  filename : String
deriving DecidableEq, Repr

/-- A request to a prediction route: `request.files` either holds a file
under the key `image` or it does not. -/
structure PredictRequest where
  image : Option UploadedFile
deriving DecidableEq, Repr

/-- JSON response of `/api/predict` (status code, `success` flag, `error`
string, `prediction` payload of merged info and confidence). -/
structure ApiPredictResponse where
  status : Nat
  success : Bool
  error : Option String
  prediction : Option (MergedInfo × ℚ)
deriving DecidableEq, Repr

/-- Oracle for the effectful part of the prediction path: saving the upload
and running `predict_with_confidence` on the saved file; an exception is an
`Except.error`. -/
abbrev InferOracle := String → Except String (Int × ℚ)

/-- Outcome of the `db.save_prediction` call, passed in as a parameter:
`ok` with the inserted id, or `error` with the raised exception's message. -/
abbrev PersistOutcome := Except String String

/-- Embedding of the `/api/predict` route (`app.api_predict`). Returns the
response together with the list of log lines printed. The inner
`try/except` around `db.save_prediction` turns a persistence failure into a
log line only. -/
def api_predict (infer : InferOracle) (c : Catalog) (persist : PersistOutcome)
    (req : PredictRequest) : ApiPredictResponse × List String :=
  match req.image with
  | none =>
    ({ status := 400, success := false
       error := some "No image file provided. Send a file with key \x27image\x27."
       prediction := none }, [])
  | some image =>
    if image.filename = "" then
      ({ status := 400, success := false, error := some "Empty filename."
         prediction := none }, [])
    else if !allowed_file image.filename then
      ({ status := 400, success := false, error := some "Unsupported file type."
         prediction := none }, [])
    else
      match infer image.filename with
      | .error e =>
        ({ status := 500, success := false, error := some e, prediction := none }, [])
      | .ok (pred, confidence) =>
        match get_disease_info c pred with
        | none =>
          ({ status := 500, success := false, error := some "KeyError"
             prediction := none }, [])
        | some info =>
          ({ status := 200, success := true, error := none
             prediction := some (info, confidence) },
           match persist with
           | .error e => ["[MongoDB] Could not save prediction: " ++ e]
           | .ok _ => [])

/-- Outcome of the `/submit` page route. `keyError400` is the framework's
`BadRequestKeyError` page raised by `request.files["image"]` on a missing
key (HTTP 400, an HTML page, not a JSON body); `serverError` is an
unhandled exception (HTTP 500); `rendered` is the `submit.html` page. -/
inductive SubmitResponse where
  | keyError400 : SubmitResponse
  | serverError : String → SubmitResponse
  | rendered : MergedInfo → Int → SubmitResponse
deriving DecidableEq, Repr

/-- Embedding of the `/submit` route (`app.submit`, POST branch). The route
performs no filename or extension validation: it saves the upload and runs
inference directly (both inside the `infer` oracle). -/
def submit (infer : InferOracle) (c : Catalog) (persist : PersistOutcome)
    (req : PredictRequest) : SubmitResponse × List String :=
  match req.image with
  | none => (.keyError400, [])
  | some image =>
    match infer image.filename with
    | .error e => (.serverError e, [])
    | .ok (pred, _confidence) =>
      match get_disease_info c pred with
      | none => (.serverError "KeyError", [])
      | some info =>
        ((.rendered info pred),
         match persist with
         | .error e => ["[MongoDB] Could not save prediction: " ++ e]
         | .ok _ => [])

/-! ## app.py — auth routes -/

/-- JSON body of `/signup` (each field may be absent). -/
structure SignupBody where
  name : Option String
  email : Option String
  password : Option String
deriving DecidableEq, Repr

/-- Outcome of the `/signup` route. -/
inductive SignupResult where
  | badRequest : String → SignupResult
  | conflict : String → SignupResult
  | created : Nat → SignupResult
deriving DecidableEq, Repr

/-- Embedding of the `/signup` route (`app.signup`). `hash` abstracts
`bcrypt.generate_password_hash`; `now` is the creation timestamp; the fresh
Mongo id is modelled as the store length. Returns the response and the
users store after the request. -/
def signup (hash : String → String) (now : Nat) (store : List UserAccount)
    (body : Option SignupBody) : SignupResult × List UserAccount :=
  match body with
  | none => (.badRequest "Request body must be JSON.", store)
  | some data =>
    let name := pyStrip (data.name.getD "")
    let email := strLower (pyStrip (data.email.getD ""))
    let password := data.password.getD ""
    if name = "" || email = "" || password = "" then
      (.badRequest "name, email, and password are required.", store)
    else if (find_user_by_email store email).isSome then
      (.conflict "Email already registered.", store)
    else
      (.created store.length,
       store ++ [{ id := store.length, name := name, email := email
                   password := hash password, created_at := now }])

/-- JSON body of `/login`. -/
structure LoginBody where
  email : Option String
  password : Option String
deriving DecidableEq, Repr

/-- Outcome of the `/login` route: `ok` carries the JWT identity (the user
id) and the user object fields returned in the body. -/
inductive LoginResult where
  | badRequest : String → LoginResult
  | unauthorized : String → LoginResult
  | ok : Nat → String → String → LoginResult
deriving DecidableEq, Repr

/-- Embedding of the `/login` route (`app.login`). `checkHash` abstracts
`bcrypt.check_password_hash (stored_hash, password)`. -/
def login (checkHash : String → String → Bool) (store : List UserAccount)
    (body : Option LoginBody) : LoginResult :=
  match body with
  | none => .badRequest "Request body must be JSON."
  | some data =>
    let email := strLower (pyStrip (data.email.getD ""))
    let password := data.password.getD ""
    if email = "" || password = "" then
      .badRequest "email and password are required."
    else
      match find_user_by_email store email with
      | none => .unauthorized "Invalid email or password."
      | some user =>
        if !checkHash user.password password then
          .unauthorized "Invalid email or password."
        else
          .ok user.id user.name user.email

/-! ## utils.py — module initialisation (startup) -/

/-- Embedding of the `utils.py` module initialisation: read the two CSV
files and load the model weights. Each step's success is a parameter; the
source performs no validation of the two tables (in particular no row-count
check), so any successfully read contents yield a started service. -/
def startupCatalog (diseaseCsv : Option (List DiseaseRow))
    (suppCsv : Option (List SupplementRow)) (weightsOk : Bool) :
    Option Catalog :=
  match diseaseCsv, suppCsv, weightsOk with
  | some d, some s, true => some ⟨d, s⟩
  | _, _, _ => none

/-! ## Concrete fixtures used by witnesses and counterexamples -/

/-- A sample disease row. -/
def dRow0 : DiseaseRow :=
  { disease_name := "Apple : Scab", description := "Fungal disease."
    possible_steps := "Prune.", image_url := "http://img/apple-scab" }

/-- A second sample disease row. -/
def dRow1 : DiseaseRow :=
  { disease_name := "Apple : Rot", description := "Black rot."
    possible_steps := "Remove mummies.", image_url := "http://img/apple-rot" }

/-- A sample supplement row. -/
def sRow0 : SupplementRow :=
  { supplement_name := "Fungicide A", supplement_image := "http://img/supp0"
    buy_link := "http://shop/supp0" }

/-- A second sample supplement row. -/
def sRow1 : SupplementRow :=
  { supplement_name := "Fungicide B", supplement_image := "http://img/supp1"
    buy_link := "http://shop/supp1" }

/-- A catalog with the full 39 rows, row 0 distinguished. -/
def cat39 : Catalog :=
  ⟨dRow0 :: List.replicate 38 dRow1, sRow0 :: List.replicate 38 sRow1⟩

/-- A one-row catalog (used where only row 0 is reached). -/
def cat0 : Catalog := ⟨[dRow0], [sRow0]⟩

/-- A sample stored prediction. -/
def recA : PredictionRecord :=
  { image_filename := "leaf1.jpg", disease_name := "Apple : Scab"
    confidence := 97/2, description := "Fungal disease."
    possible_steps := "Prune.", supplement := (mkMerged dRow0 sRow0).supplement
    created_at := 10 }

/-- A second sample stored prediction, older than `recA`. -/
def recB : PredictionRecord :=
  { image_filename := "leaf2.png", disease_name := "Apple : Rot"
    confidence := 80, description := "Black rot."
    possible_steps := "Remove mummies."
    supplement := (mkMerged dRow1 sRow1).supplement
    created_at := 4 }

/-- A sample registered account (`a@b.com`). -/
def acct0 : UserAccount :=
  { id := 0, name := "Ann", email := "a@b.com", password := "hash0", created_at := 1 }

/-- An inference oracle that always raises. -/
def inferErr : InferOracle := fun _ => Except.error "unreachable"

/-- An inference oracle that always predicts class 0 with probability 1/2. -/
def inferOk0 : InferOracle := fun _ => Except.ok (0, 1/2)

/-! ## Helper lemmas -/

theorem roundHalfEven_nonneg (q : ℚ) (h : 0 ≤ q) : 0 ≤ roundHalfEven q := by
  have hf : 0 ≤ ⌊q⌋ := Int.floor_nonneg.mpr h
  unfold roundHalfEven
  split_ifs <;> omega

theorem roundHalfEven_le (q : ℚ) (n : ℤ) (h : q ≤ (n : ℚ)) : roundHalfEven q ≤ n := by
  have hfle : ⌊q⌋ ≤ n := by
    have := Int.floor_mono h
    rwa [Int.floor_intCast] at this
  have hflt : (⌊q⌋ : ℚ) < q → ⌊q⌋ + 1 ≤ n := by
    intro hlt
    have : (⌊q⌋ : ℚ) < (n : ℚ) := lt_of_lt_of_le hlt h
    have : ⌊q⌋ < n := by exact_mod_cast this
    omega
  have hle : (⌊q⌋ : ℚ) ≤ q := Int.floor_le q
  unfold roundHalfEven
  split_ifs with h1 h2 h3
  · exact hfle
  · exact hflt (by linarith)
  · exact hfle
  · exact hflt (by linarith)

theorem round2_bounds (q : ℚ) (h0 : 0 ≤ q) (h1 : q ≤ 100) :
    0 ≤ round2 q ∧ round2 q ≤ 100 := by
  have hnn : 0 ≤ roundHalfEven (q * 100) :=
    roundHalfEven_nonneg _ (by linarith)
  have hle : roundHalfEven (q * 100) ≤ (10000 : ℤ) :=
    roundHalfEven_le _ 10000 (by push_cast; linarith)
  constructor
  · exact div_nonneg (by exact_mod_cast hnn) (by norm_num)
  · rw [round2, div_le_iff₀ (by norm_num : (0:ℚ) < 100)]
    have : (roundHalfEven (q * 100) : ℚ) ≤ 10000 := by exact_mod_cast hle
    linarith

theorem listMax_mem : ∀ (xs : List ℚ), xs ≠ [] → listMax xs ∈ xs
  | [], h => absurd rfl h
  | [x], _ => by simp [listMax]
  | x :: y :: ys, _ => by
    rcases le_total x (listMax (y :: ys)) with h | h
    · have := listMax_mem (y :: ys) (by simp)
      simp only [listMax, max_eq_right h]
      exact List.mem_cons_of_mem x this
    · simp only [listMax, max_eq_left h]
      exact List.mem_cons_self x _

theorem le_listMax : ∀ (xs : List ℚ) (a : ℚ), a ∈ xs → a ≤ listMax xs
  | [], a, h => absurd h (List.not_mem_nil a)
  | [x], a, h => by
    rcases List.mem_singleton.mp h with rfl
    simp [listMax]
  | x :: y :: ys, a, h => by
    rcases List.mem_cons.mp h with rfl | h2
    · exact le_max_left _ _
    · exact le_trans (le_listMax (y :: ys) a h2) (le_max_right _ _)

theorem firstIndexOf_lt_length : ∀ (xs : List ℚ) (v : ℚ), v ∈ xs →
    firstIndexOf v xs < xs.length
  | [], v, h => absurd h (List.not_mem_nil v)
  | x :: xs, v, h => by
    by_cases hx : x = v
    · simp [firstIndexOf, hx]
    · rcases List.mem_cons.mp h with rfl | h2
      · exact absurd rfl hx
      · simpa [firstIndexOf, hx, Nat.succ_lt_succ_iff] using
          firstIndexOf_lt_length xs v h2

theorem getD_firstIndexOf : ∀ (xs : List ℚ) (v : ℚ), v ∈ xs →
    xs.getD (firstIndexOf v xs) 0 = v
  | [], v, h => absurd h (List.not_mem_nil v)
  | x :: xs, v, h => by
    by_cases hx : x = v
    · simp [firstIndexOf, hx]
    · rcases List.mem_cons.mp h with rfl | h2
      · exact absurd rfl hx
      · simpa [firstIndexOf, hx] using getD_firstIndexOf xs v h2

theorem getD_mem_of_lt : ∀ (xs : List ℚ) (n : Nat), n < xs.length →
    xs.getD n 0 ∈ xs
  | [], n, h => absurd h (by simp)
  | x :: xs, 0, _ => by simp
  | x :: xs, n + 1, h => by
    have := getD_mem_of_lt xs n (Nat.succ_lt_succ_iff.mp (by simpa using h))
    simpa using List.mem_cons_of_mem x this

theorem sum_map_nonneg (e : ℚ → ℚ) (hpos : ∀ x : ℚ, 0 < e x) :
    ∀ xs : List ℚ, 0 ≤ (xs.map e).sum := by
  intro xs
  induction xs with
  | nil => simp
  | cons x xs ih =>
    simp only [List.map_cons, List.sum_cons]
    exact add_nonneg (le_of_lt (hpos x)) ih

theorem le_sum_map (e : ℚ → ℚ) (hpos : ∀ x : ℚ, 0 < e x) :
    ∀ (xs : List ℚ) (x : ℚ), x ∈ xs → e x ≤ (xs.map e).sum := by
  intro xs
  induction xs with
  | nil => intro x h; exact absurd h (List.not_mem_nil x)
  | cons y ys ih =>
    intro x h
    simp only [List.map_cons, List.sum_cons]
    rcases List.mem_cons.mp h with rfl | h2
    · exact le_add_of_nonneg_right (sum_map_nonneg e hpos ys)
    · calc e x ≤ (ys.map e).sum := ih x h2
        _ ≤ e y + (ys.map e).sum := le_add_of_nonneg_left (le_of_lt (hpos y))

theorem softmax_mem_bounds (e : ℚ → ℚ) (hpos : ∀ x : ℚ, 0 < e x)
    (logits : List ℚ) (p : ℚ) (hp : p ∈ softmax e logits) : 0 ≤ p ∧ p ≤ 1 := by
  rcases List.mem_map.mp hp with ⟨x, hx, rfl⟩
  have hsum : 0 < (logits.map e).sum :=
    lt_of_lt_of_le (hpos x) (le_sum_map e hpos logits x hx)
  constructor
  · exact div_nonneg (le_of_lt (hpos x)) (le_of_lt hsum)
  · rw [div_le_one hsum]
    exact le_sum_map e hpos logits x hx

theorem predict_fst_eq (e : ℚ → ℚ) (logits : List ℚ) :
    (predict_with_confidence e logits).1 =
      firstIndexOf (listMax (softmax e logits)) (softmax e logits) := rfl

theorem predict_snd_eq (e : ℚ → ℚ) (logits : List ℚ) :
    (predict_with_confidence e logits).2 =
      round2 (listMax (softmax e logits) * 100) := rfl

theorem softmax_length (e : ℚ → ℚ) (logits : List ℚ) :
    (softmax e logits).length = logits.length := List.length_map _ _

theorem find?_append_right {p : UserAccount → Bool} :
    ∀ (l : List UserAccount) (u : UserAccount), l.find? p = none → p u = true →
      (l ++ [u]).find? p = some u := by
  intro l u hl hu
  rw [List.find?_append, hl, Option.none_or, List.find?_cons_of_pos _ hu]

/-! ## Claim theorems -/

/-- C1: whenever the forward pass succeeds (an arbitrary vector of 39 logits,
softmax taken with any positive exponential), `predict_with_confidence`
returns the index of a maximal softmax probability (the arg-max), the class
index lies in [0,38], and the confidence is that class's softmax probability
times 100 rounded to two decimal places, hence lies in [0,100]. -/
theorem c1_predict_with_confidence (e : ℚ → ℚ) (logits : List ℚ)
    (hlen : logits.length = 39) (hpos : ∀ x : ℚ, 0 < e x) :
    (predict_with_confidence e logits).1 < 39 ∧
    (∀ j : Nat, j < 39 →
      (softmax e logits).getD j 0 ≤
        (softmax e logits).getD (predict_with_confidence e logits).1 0) ∧
    (predict_with_confidence e logits).2 =
      round2 ((softmax e logits).getD (predict_with_confidence e logits).1 0 * 100) ∧
    0 ≤ (predict_with_confidence e logits).2 ∧
    (predict_with_confidence e logits).2 ≤ 100 := by
  have hplen : (softmax e logits).length = 39 := by rw [softmax_length, hlen]
  have hne : softmax e logits ≠ [] := by
    intro h
    rw [h] at hplen
    simp at hplen
  have hmem : listMax (softmax e logits) ∈ softmax e logits := listMax_mem _ hne
  have hidx : firstIndexOf (listMax (softmax e logits)) (softmax e logits) <
      (softmax e logits).length := firstIndexOf_lt_length _ _ hmem
  have hget : (softmax e logits).getD
      (firstIndexOf (listMax (softmax e logits)) (softmax e logits)) 0 =
      listMax (softmax e logits) := getD_firstIndexOf _ _ hmem
  have hbounds := softmax_mem_bounds e hpos logits _ hmem
  refine ⟨?_, ?_, ?_, ?_, ?_⟩
  · rw [predict_fst_eq]
    omega
  · intro j hj
    rw [predict_fst_eq, hget]
    exact le_listMax _ _ (getD_mem_of_lt _ j (by omega))
  · rw [predict_fst_eq, predict_snd_eq, hget]
  · rw [predict_snd_eq]
    exact (round2_bounds _ (by linarith [hbounds.1]) (by linarith [hbounds.2])).1
  · rw [predict_snd_eq]
    exact (round2_bounds _ (by linarith [hbounds.1]) (by linarith [hbounds.2])).2

/-- Witness for C1 at a concrete logit vector (39 zeros, exponential 1). -/
theorem c1_predict_with_confidence_witness :
    (predict_with_confidence (fun _ => 1) (List.replicate 39 (0:ℚ))).1 < 39 ∧
    0 ≤ (predict_with_confidence (fun _ => 1) (List.replicate 39 (0:ℚ))).2 ∧
    (predict_with_confidence (fun _ => 1) (List.replicate 39 (0:ℚ))).2 ≤ 100 ∧
    (softmax (fun _ => 1) (List.replicate 39 (0:ℚ))).getD 5 0 ≤
      (softmax (fun _ => 1) (List.replicate 39 (0:ℚ))).getD
        (predict_with_confidence (fun _ => 1) (List.replicate 39 (0:ℚ))).1 0 :=
  have h := c1_predict_with_confidence (fun _ => 1) (List.replicate 39 (0:ℚ))
    (List.length_replicate 39 0) (fun _ => one_pos)
  ⟨h.1, h.2.2.2.1, h.2.2.2.2, h.2.1 5 (by norm_num)⟩

/-- C2: with both tables having the model's 39 rows, `get_disease_info`
returns the merged record built from row `i` of each table for every index
in [0,38], and fails (raises, embedded as `none`) for every index outside
[0,38], in particular 39 and -1. -/
theorem c2_get_disease_info_range (c : Catalog) (h1 : c.disease_info.length = 39)
    (h2 : c.supplement_info.length = 39) :
    (∀ i : Int, 0 ≤ i → i ≤ 38 → ∃ d s,
        seriesGet c.disease_info i = some d ∧
        seriesGet c.supplement_info i = some s ∧
        get_disease_info c i = some (mkMerged d s)) ∧
    (∀ i : Int, i < 0 ∨ 38 < i → get_disease_info c i = none) := by
  constructor
  · intro i h0 h38
    have hdlt : i.toNat < c.disease_info.length := by omega
    have hslt : i.toNat < c.supplement_info.length := by omega
    have hda : seriesGet c.disease_info i = some (c.disease_info.get ⟨i.toNat, hdlt⟩) := by
      rw [seriesGet, dif_pos ⟨h0, hdlt⟩]
    have hsa : seriesGet c.supplement_info i =
        some (c.supplement_info.get ⟨i.toNat, hslt⟩) := by
      rw [seriesGet, dif_pos ⟨h0, hslt⟩]
    exact ⟨_, _, hda, hsa, by simp [get_disease_info, hda, hsa]⟩
  · intro i hout
    have hda : seriesGet c.disease_info i = none := by
      rw [seriesGet, dif_neg]
      rintro ⟨hge, hlt⟩
      rw [h1] at hlt
      omega
    simp [get_disease_info, hda]

/-- Witness for C2 on a concrete 39-row catalog, at indices 0, 39, and -1. -/
theorem c2_get_disease_info_witness :
    (get_disease_info cat39 0).isSome = true ∧
    get_disease_info cat39 39 = none ∧
    get_disease_info cat39 (-1) = none :=
  have h := c2_get_disease_info_range cat39 (by simp [cat39]) (by simp [cat39])
  have h0 := h.1 0 (by norm_num) (by norm_num)
  ⟨by obtain ⟨d, s, _, _, hm⟩ := h0; rw [hm]; rfl,
   h.2 39 (Or.inr (by norm_num)), h.2 (-1) (Or.inl (by norm_num))⟩

/-- C3: `allowed_file` accepts exactly the filenames containing a dot whose
lowercased segment after the last dot is in {png, jpg, jpeg, webp, bmp}; on
`/api/predict`, every other non-empty filename gets the 400
"Unsupported file type." response, identically for every inference oracle
(so before any inference occurs) and with nothing persisted or logged. -/
theorem c3_unsupported_type_rejected (infer : InferOracle) (c : Catalog)
    (persist : PersistOutcome) (f : String) :
    (allowed_file f = true ↔
      (strContains f '.' = true ∧ strLower (extAfterLastDot f) ∈ ALLOWED)) ∧
    (f ≠ "" → allowed_file f = false →
      api_predict infer c persist ⟨some ⟨f⟩⟩ =
        ({ status := 400, success := false, error := some "Unsupported file type."
           prediction := none }, [])) := by
  constructor
  · simp [allowed_file, List.elem_iff]
  · intro hne hbad
    simp [api_predict, hne, hbad]

/-- Witness for C3: a `.txt` upload is rejected with the 400 response for an
arbitrary oracle, and an uppercase `.JPG` name is accepted. -/
theorem c3_unsupported_type_witness :
    api_predict inferErr cat0 (Except.ok "id0") ⟨some ⟨"leaf.txt"⟩⟩ =
      ({ status := 400, success := false, error := some "Unsupported file type."
         prediction := none }, []) ∧
    allowed_file "Leaf.JPG" = true :=
  ⟨(c3_unsupported_type_rejected inferErr cat0 (Except.ok "id0") "leaf.txt").2
      (by decide) (by decide),
   (c3_unsupported_type_rejected inferErr cat0 (Except.ok "id0") "Leaf.JPG").1.mpr
      ⟨by decide, by decide⟩⟩

/-- C4: once validation, inference and lookup succeed, `/api/predict`
returns the 200 success payload for every persistence outcome, and a
persistence failure only produces a log line. -/
theorem c4_persistence_fire_and_forget (infer : InferOracle) (c : Catalog)
    (f : String) (p : Int) (conf : ℚ) (info : MergedInfo)
    (hne : f ≠ "") (hok : allowed_file f = true)
    (hinf : infer f = Except.ok (p, conf))
    (hlook : get_disease_info c p = some info) :
    (∀ persist : PersistOutcome,
      (api_predict infer c persist ⟨some ⟨f⟩⟩).1 =
        { status := 200, success := true, error := none
          prediction := some (info, conf) }) ∧
    (∀ emsg : String,
      (api_predict infer c (Except.error emsg) ⟨some ⟨f⟩⟩).2 =
        ["[MongoDB] Could not save prediction: " ++ emsg]) := by
  constructor
  · intro persist
    simp [api_predict, hne, hok, hinf, hlook]
  · intro emsg
    simp [api_predict, hne, hok, hinf, hlook]

/-- Witness for C4: with the database down, the response is still the 200
payload and the failure is only logged. -/
theorem c4_persistence_witness :
    (api_predict inferOk0 cat0 (Except.error "down") ⟨some ⟨"leaf.jpg"⟩⟩).1 =
      { status := 200, success := true, error := none
        prediction := some (mkMerged dRow0 sRow0, 1/2) } ∧
    (api_predict inferOk0 cat0 (Except.error "down") ⟨some ⟨"leaf.jpg"⟩⟩).2 =
      ["[MongoDB] Could not save prediction: down"] :=
  have h := c4_persistence_fire_and_forget inferOk0 cat0 "leaf.jpg" 0 (1/2)
    (mkMerged dRow0 sRow0) (by decide) (by decide) rfl rfl
  ⟨h.1 (Except.error "down"), h.2 "down"⟩

/-- C5 counterexample: the claim quantifies over every non-negative limit,
but MongoDB treats `limit(0)` as "no limit", so with a one-record store
`get_recent_predictions store 0` returns 1 > 0 records. -/
theorem c5_limit_zero_counterexample :
    ¬ ((get_recent_predictions [recA] 0).length ≤ 0) := by decide

/-- C5 (amended): for every positive limit N, `get_recent_predictions`
returns at most N records, ordered newest-first by `created_at`. -/
theorem c5_list_recent_bounded (store : List PredictionRecord) (n : Int)
    (hn : 0 < n) :
    (get_recent_predictions store n).length ≤ n.toNat ∧
    List.Pairwise newestFirst (get_recent_predictions store n) := by
  have hs : List.Sorted newestFirst (List.insertionSort newestFirst store) :=
    List.sorted_insertionSort newestFirst store
  rw [get_recent_predictions, mongoLimit, if_neg (by omega : ¬ n = 0)]
  constructor
  · rw [List.length_take]
    have : n.natAbs = n.toNat := by omega
    omega
  · exact List.Pairwise.sublist (List.take_sublist _ _) hs

/-- Witness for C5 on a concrete two-record store at limit 5. -/
theorem c5_list_recent_witness :
    (get_recent_predictions [recB, recA] 5).length ≤ 5 ∧
    List.Pairwise newestFirst (get_recent_predictions [recB, recA] 5) :=
  have h := c5_list_recent_bounded [recB, recA] 5 (by norm_num)
  ⟨h.1, h.2⟩

/-- C6 counterexample: the `/submit` route performs no empty-filename
validation, so an upload whose filename is empty is not rejected with the
400 MissingFileError response: the outcome depends on the save/inference
oracle (really an `IsADirectoryError` at save time, a 500), and under a
succeeding oracle inference does occur. -/
theorem c6_submit_counterexample :
    (submit (fun _ => Except.error "IsADirectoryError") cat0 (Except.ok "id0")
        ⟨some ⟨""⟩⟩).1 = SubmitResponse.serverError "IsADirectoryError" ∧
    (submit inferOk0 cat0 (Except.ok "id0") ⟨some ⟨""⟩⟩).1 =
      SubmitResponse.rendered (mkMerged dRow0 sRow0) 0 := ⟨rfl, rfl⟩

/-- C6 (amended): on `/api/predict`, a missing `image` field and an empty
filename are each rejected with `success := false` and HTTP 400, identically
for every inference oracle and persistence outcome (so before the file is
stored and before any inference); on `/submit`, a missing field only raises
the framework's key-error 400 page, and no empty-filename check exists. -/
theorem c6_missing_file_validation (infer : InferOracle) (c : Catalog)
    (persist : PersistOutcome) :
    api_predict infer c persist ⟨none⟩ =
      ({ status := 400, success := false
         error := some "No image file provided. Send a file with key \x27image\x27."
         prediction := none }, []) ∧
    api_predict infer c persist ⟨some ⟨""⟩⟩ =
      ({ status := 400, success := false, error := some "Empty filename."
         prediction := none }, []) ∧
    submit infer c persist ⟨none⟩ = (SubmitResponse.keyError400, []) :=
  ⟨rfl, rfl, rfl⟩

/-- C7: a well-formed signup request (nonempty name, email and password
after normalization) whose normalized email is already registered yields the
409 conflict response and leaves the users store unchanged. -/
theorem c7_signup_duplicate_email (hash : String → String) (now : Nat)
    (store : List UserAccount) (name email password : String)
    (hname : pyStrip name ≠ "") (hpw : password ≠ "")
    (hemail : strLower (pyStrip email) ≠ "")
    (hdup : (find_user_by_email store (strLower (pyStrip email))).isSome = true) :
    signup hash now store (some ⟨some name, some email, some password⟩) =
      (SignupResult.conflict "Email already registered.", store) := by
  simp [signup, hname, hpw, hemail, hdup]

/-- Witness for C7: signing up with ` A@B.com ` while `a@b.com` is already
registered yields 409 and an unchanged store. -/
theorem c7_signup_duplicate_witness :
    signup id 2 [acct0] (some ⟨some "Bob", some " A@B.com ", some "pw"⟩) =
      (SignupResult.conflict "Email already registered.", [acct0]) :=
  c7_signup_duplicate_email id 2 [acct0] "Bob" " A@B.com " "pw"
    (by decide) (by decide) (by decide) (by decide)

/-- C8 counterexample: module initialisation performs no row-count check, so
the service starts (the catalog loads) even when the two tables have
different lengths, neither equal to 39. -/
theorem c8_startup_counterexample :
    startupCatalog (some [dRow0]) (some [sRow0, sRow1]) true =
      some ⟨[dRow0], [sRow0, sRow1]⟩ ∧
    ([dRow0] : List DiseaseRow).length ≠ ([sRow0, sRow1] : List SupplementRow).length ∧
    ([dRow0] : List DiseaseRow).length ≠ 39 :=
  ⟨rfl, by decide, by decide⟩

/-- C8 (amended): startup performs no validation of the two tables: any
successfully loaded contents start the service, and a length mismatch
instead surfaces per request, as a failed lookup (`none`, a 500) at every
index covered by the disease table but not the supplement table. -/
theorem c8_no_startup_length_check (d : List DiseaseRow) (s : List SupplementRow) :
    startupCatalog (some d) (some s) true = some ⟨d, s⟩ ∧
    (∀ i : Int, 0 ≤ i → s.length ≤ i.toNat → i.toNat < d.length →
      get_disease_info ⟨d, s⟩ i = none) := by
  refine ⟨rfl, ?_⟩
  intro i h0 hs hd
  have hda : seriesGet d i = some (d.get ⟨i.toNat, hd⟩) := by
    rw [seriesGet, dif_pos ⟨h0, hd⟩]
  have hsa : seriesGet s i = none := by
    rw [seriesGet, dif_neg]
    rintro ⟨-, hlt⟩
    omega
  simp [get_disease_info, hda, hsa]

/-- Witness for C8 on a concrete mismatched catalog: startup succeeds and
index 1 fails at request time. -/
theorem c8_no_startup_length_check_witness :
    startupCatalog (some [dRow0, dRow1]) (some [sRow0]) true =
      some ⟨[dRow0, dRow1], [sRow0]⟩ ∧
    get_disease_info ⟨[dRow0, dRow1], [sRow0]⟩ 1 = none :=
  have h := c8_no_startup_length_check [dRow0, dRow1] [sRow0]
  ⟨h.1, h.2 1 (by decide) (by decide) (by decide)⟩

/-- C9: two well-formed failed logins — one whose normalized email matches
no account, one whose email matches account `u` but whose password fails the
hash check — produce the same observable response: 401 with
"Invalid email or password.". -/
theorem c9_login_indistinguishable (checkHash : String → String → Bool)
    (store : List UserAccount) (e1 p1 e2 p2 : String) (u : UserAccount)
    (h1e : strLower (pyStrip e1) ≠ "") (h1p : p1 ≠ "")
    (h1f : find_user_by_email store (strLower (pyStrip e1)) = none)
    (h2e : strLower (pyStrip e2) ≠ "") (h2p : p2 ≠ "")
    (h2f : find_user_by_email store (strLower (pyStrip e2)) = some u)
    (hwrong : checkHash u.password p2 = false) :
    login checkHash store (some ⟨some e1, some p1⟩) =
      login checkHash store (some ⟨some e2, some p2⟩) ∧
    login checkHash store (some ⟨some e1, some p1⟩) =
      LoginResult.unauthorized "Invalid email or password." := by
  constructor
  · simp [login, h1e, h1p, h1f, h2e, h2p, h2f, hwrong]
  · simp [login, h1e, h1p, h1f]

/-- Witness for C9: unknown `x@y.com` versus registered `A@B.com` with a
wrong password give identical 401 responses. -/
theorem c9_login_indistinguishable_witness :
    login (fun _ _ => false) [acct0] (some ⟨some "x@y.com", some "p1"⟩) =
      login (fun _ _ => false) [acct0] (some ⟨some "A@B.com", some "p2"⟩) ∧
    login (fun _ _ => false) [acct0] (some ⟨some "x@y.com", some "p1"⟩) =
      LoginResult.unauthorized "Invalid email or password." :=
  c9_login_indistinguishable (fun _ _ => false) [acct0] "x@y.com" "p1" "A@B.com" "p2"
    acct0 (by decide) (by decide) (by decide) (by decide) (by decide) (by decide) rfl

/-- C10: signup and login normalize the email identically (strip surrounding
whitespace, lowercase) before touching the store: a signup with email `e1`
stores the normalized email, and a later login whose email has the same
normalization (in particular one differing only in case or surrounding
whitespace) resolves to that same account. -/
theorem c10_email_normalization (hash : String → String)
    (checkHash : String → String → Bool) (now : Nat) (store : List UserAccount)
    (name e1 pw e2 : String)
    (hname : pyStrip name ≠ "") (hpw : pw ≠ "")
    (hem : strLower (pyStrip e1) ≠ "")
    (hfresh : find_user_by_email store (strLower (pyStrip e1)) = none)
    (hnorm : strLower (pyStrip e2) = strLower (pyStrip e1))
    (hcheck : checkHash (hash pw) pw = true) :
    signup hash now store (some ⟨some name, some e1, some pw⟩) =
      (SignupResult.created store.length,
       store ++ [{ id := store.length, name := pyStrip name
                   email := strLower (pyStrip e1), password := hash pw
                   created_at := now }]) ∧
    login checkHash
      (store ++ [{ id := store.length, name := pyStrip name
                   email := strLower (pyStrip e1), password := hash pw
                   created_at := now }])
      (some ⟨some e2, some pw⟩) =
      LoginResult.ok store.length (pyStrip name) (strLower (pyStrip e1)) := by
  have hdup : (find_user_by_email store (strLower (pyStrip e1))).isSome = false := by
    rw [hfresh]
    rfl
  have hfind : find_user_by_email
      (store ++ [{ id := store.length, name := pyStrip name
                   email := strLower (pyStrip e1), password := hash pw
                   created_at := now }]) (strLower (pyStrip e1)) =
      some { id := store.length, name := pyStrip name
             email := strLower (pyStrip e1), password := hash pw
             created_at := now } :=
    find?_append_right store _ hfresh (by simp)
  constructor
  · simp [signup, hname, hpw, hem, hdup]
  · simp [login, hnorm, hem, hpw, hfind, hcheck]

/-- Witness for C10: signup with `"  User@Example.COM "` then login with
`"user@example.com"` resolves to the created account. -/
theorem c10_email_normalization_witness :
    signup id 5 [] (some ⟨some "Alice", some "  User@Example.COM ", some "secret"⟩) =
      (SignupResult.created 0,
       [{ id := 0, name := "Alice", email := "user@example.com"
          password := "secret", created_at := 5 }]) ∧
    login (fun a b => a == b)
      [{ id := 0, name := "Alice", email := "user@example.com"
         password := "secret", created_at := 5 }]
      (some ⟨some "user@example.com", some "secret"⟩) =
      LoginResult.ok 0 "Alice" "user@example.com" :=
  c10_email_normalization id (fun a b => a == b) 5 [] "Alice" "  User@Example.COM "
    "secret" "user@example.com" (by decide) (by decide) (by decide) rfl
    (by decide) (by decide)

end PlantGuard
